import Mathlib

/-!
Verification of `src/libdnf5/utils/locker.cpp` (class `libdnf5::utils::Locker`).

The C++ code is a thin wrapper around POSIX syscalls (`open`, `fcntl`,
`ftruncate`, `lseek`, `write`, `fsync`, `read`, `close`, `unlink`).  We embed
it as state-passing functions over
  * a `Locker` record mirroring the object's fields (`path`, `lock_fd`,
    sentinel `-1`), and
  * a `World` record modelling the parts of the OS state the code touches:
    whether the lock file exists, its byte content, the table of open
    descriptors, and the next descriptor number `open` would return.
Syscall outcomes that are up to the kernel (injected failures, lock
contention, short writes) are supplied per call through small environment
records; `none` means the syscall succeeds.  A C++ `throw` is modelled as an
`Except.error` result; since side effects performed before a throw persist,
every method returns the error-or-value together with the final `Locker` and
`World`.
-/

deriving instance DecidableEq for Except

namespace Libdnf5.Utils

/-- Errno values distinguished by the code (plus a few concrete others). -/
inductive Errno
  | EACCES
  | EAGAIN
  | EBADF
  | ENOENT
  | EINTR
  | other (n : Nat)
deriving DecidableEq

/-- The two record-lock types requested via `fcntl`: `F_RDLCK` for
`read_lock` and `F_WRLCK` for `write_lock`. -/
inductive LockType
  | F_RDLCK
  | F_WRLCK
deriving DecidableEq

/-- The `struct flock` request built in `Locker::lock`: zeroed by `memset`,
then `l_type` is set to the requested type, `l_whence` to `SEEK_SET` (0),
and `l_start`, `l_len`, `l_pid` to 0. -/
structure Flock where
  l_type : LockType
  l_whence : Nat
  l_start : Nat
  l_len : Nat
  l_pid : Nat
deriving DecidableEq

/-- The two exception kinds thrown by the code: `SystemError` carries the OS
error code, a message identifying the failing operation, and the path;
`RuntimeError` (the usage/precondition error) carries only a message and the
path. -/
inductive Err
  | systemError (code : Errno) (msg : String) (path : String)
  | runtimeError (msg : String) (path : String)
deriving DecidableEq

/-- The OS state visible to the code, for the single path owned by a Locker:
whether the lock file currently exists, its content, the descriptors open on
it, the next descriptor number `open` would hand out, and the last record
lock requested via `fcntl` (observable so that the shared/exclusive
distinction is not erased by the model). -/
structure World where
  fileExists : Bool
  content : List Char
  fds : List Int
  nextFd : Nat
  lockRequest : Option Flock
deriving DecidableEq

/-- The fields of `class Locker`: the immutable `path` and the descriptor
field `lock_fd` (`-1` when unheld). -/
structure Locker where
  path : String
  lock_fd : Int
deriving DecidableEq

/-- Modelled from the spec: the class declaration lives in
`libdnf5/utils/locker.hpp`, which is not under src.  Per the spec,
construction stores the path, performs no file I/O, and the descriptor field
starts at the unheld sentinel. -/
def Locker.construct (path : String) : Locker :=
  { path := path, lock_fd := -1 }

/-- Kernel-chosen outcomes for one call to `Locker::lock`:
`open_fail = some e` makes `open` return `-1` with errno `e`;
`fcntl_fail = some e` makes the `F_SETLK` request fail with errno `e`
(contention reports `EACCES` or `EAGAIN`). -/
structure LockEnv where
  open_fail : Option Errno
  fcntl_fail : Option Errno

/-- Kernel-chosen outcomes for one call to `Locker::write_content`.
`write_result = .ok n` means the `write` syscall reports `n` bytes written
(`n` may be smaller than the requested size: a short write);
`write_result = .error e` means `write` returned `-1` with errno `e`. -/
structure WriteEnv where
  ftruncate_fail : Option Errno
  lseek_fail : Option Errno
  write_result : Except Errno Nat
  fsync_fail : Option Errno

/-- Kernel-chosen outcomes for one call to `Locker::read_content`. -/
structure ReadEnv where
  lseek_fail : Option Errno
  read_fail : Option Errno

/-- Kernel-chosen outcomes for one call to `Locker::unlock`.  These inject
extra failures; `close` on a descriptor that is not open fails with `EBADF`
and `unlink` of a non-existent file fails with `ENOENT` regardless. -/
structure UnlockEnv where
  close_fail : Option Errno
  unlink_fail : Option Errno

/-- Locker::lock: `lock_fd = open(path, O_CREAT | O_RDWR | O_CLOEXEC, 0660)`
(the open result is stored in `lock_fd` before the `-1` check, and `O_CREAT`
creates an empty file when none exists), then a `struct flock` of the given
type is requested with `F_SETLK`.  On `fcntl` failure, errno `EACCES` or
`EAGAIN` yields `return false`; any other errno throws `SystemError`.
Success returns `true`.  Note that `lock_fd` keeps the freshly opened
descriptor on the `false` path. -/
def Locker.lock (l : Locker) (type : LockType) (w : World) (env : LockEnv) :
    Except Err Bool × Locker × World :=
  match env.open_fail with
  | some e =>
      (.error (.systemError e "Failed to open lock file" l.path),
        { l with lock_fd := -1 }, w)
  | none =>
      let fd : Int := (w.nextFd : Int)
      let l1 : Locker := { l with lock_fd := fd }
      let fl : Flock :=
        { l_type := type, l_whence := 0, l_start := 0, l_len := 0, l_pid := 0 }
      let w1 : World :=
        { fileExists := true
          content := if w.fileExists then w.content else []
          fds := fd :: w.fds
          nextFd := w.nextFd + 1
          lockRequest := some fl }
      match env.fcntl_fail with
      | none => (.ok true, l1, w1)
      | some e =>
          if e = .EACCES ∨ e = .EAGAIN then
            (.ok false, l1, w1)
          else
            (.error (.systemError e "Failed to obtain lock" l.path), l1, w1)

/-- Locker::read_lock: `return lock(F_RDLCK);`. -/
def Locker.read_lock (l : Locker) (w : World) (env : LockEnv) :
    Except Err Bool × Locker × World :=
  l.lock .F_RDLCK w env

/-- Locker::write_lock: `return lock(F_WRLCK);`. -/
def Locker.write_lock (l : Locker) (w : World) (env : LockEnv) :
    Except Err Bool × Locker × World :=
  l.lock .F_WRLCK w env

/-- Locker::write_content: guard `lock_fd == -1` (usage error), then
`ftruncate(lock_fd, 0)`, `lseek(lock_fd, 0, SEEK_SET)`,
`written = write(lock_fd, content, size)` with a check of
`written == -1` ONLY (a short write with `written >= 0` passes), then
`fsync(lock_fd)`.  Any syscall failure throws `SystemError`. -/
def Locker.write_content (l : Locker) (content : List Char) (w : World)
    (env : WriteEnv) : Except Err Unit × Locker × World :=
  if l.lock_fd = -1 then
    (.error (.runtimeError "The lock file is not opened" l.path), l, w)
  else
    match env.ftruncate_fail with
    | some e => (.error (.systemError e "Failed to truncate lock file" l.path), l, w)
    | none =>
      let w1 : World := { w with content := [] }
      match env.lseek_fail with
      | some e => (.error (.systemError e "Failed to seek lock file" l.path), l, w1)
      | none =>
        match env.write_result with
        | .error e =>
            (.error (.systemError e "Failed to write to lock file" l.path), l, w1)
        | .ok n =>
          let written : Nat := min n content.length
          let w2 : World :=
            { w1 with content := content.take written ++ w1.content.drop written }
          match env.fsync_fail with
          | some e => (.error (.systemError e "Failed to sync lock file" l.path), l, w2)
          | none => (.ok (), l, w2)

/-- The read loop of `Locker::read_content`: read up to 1024 bytes at a
time, appending each chunk to the accumulated content, until a read returns
0 bytes (end of file).  Every iteration on a nonempty remainder consumes at
least one byte, so the initial remaining length bounds the number of
iterations; taking it as structural fuel makes the recursion obviously
terminating without changing the computed value. -/
def readLoop : Nat → List Char → List Char
  | _, [] => []
  | 0, _ :: _ => []
  | fuel + 1, c :: rest =>
      (c :: rest).take 1024 ++ readLoop fuel ((c :: rest).drop 1024)

/-- Locker::read_content: guard `lock_fd == -1` (usage error), then
`lseek(lock_fd, 0, SEEK_SET)` and the 1024-byte read loop until EOF,
returning the accumulated content.  Seek or read failure throws
`SystemError`. -/
def Locker.read_content (l : Locker) (w : World) (env : ReadEnv) :
    Except Err (List Char) × Locker × World :=
  if l.lock_fd = -1 then
    (.error (.runtimeError "Cannot read content: no lock held on file" l.path), l, w)
  else
    match env.lseek_fail with
    | some e => (.error (.systemError e "Failed to seek lock file" l.path), l, w)
    | none =>
      match env.read_fail with
      | some e => (.error (.systemError e "Failed to read from lock file" l.path), l, w)
      | none => (.ok (readLoop w.content.length w.content), l, w)

/-- Locker::unlock: `if (lock_fd != -1)` then `close(lock_fd)` (which fails
with `EBADF` when the descriptor is not open) and `unlink(path)` (which
fails with `ENOENT` when the file does not exist), each throwing
`SystemError` on failure.  NOTE: the function never assigns `lock_fd = -1`,
so the field keeps the (now closed) descriptor value after a successful
unlock. -/
def Locker.unlock (l : Locker) (w : World) (env : UnlockEnv) :
    Except Err Unit × Locker × World :=
  if l.lock_fd ≠ -1 then
    if l.lock_fd ∈ w.fds then
      match env.close_fail with
      | some e => (.error (.systemError e "Failed to close lock file" l.path), l, w)
      | none =>
        let w1 : World := { w with fds := w.fds.erase l.lock_fd }
        if w1.fileExists then
          match env.unlink_fail with
          | some e => (.error (.systemError e "Failed to delete lock file" l.path), l, w1)
          | none => (.ok (), l, { w1 with fileExists := false })
        else
          (.error (.systemError .ENOENT "Failed to delete lock file" l.path), l, w1)
    else
      (.error (.systemError .EBADF "Failed to close lock file" l.path), l, w)
  else
    (.ok (), l, w)

/-- Locker::~Locker: `try { unlock(); } catch (...) {}` — runs `unlock`,
keeps whatever state it produced, and discards any error. -/
def Locker.destroy (l : Locker) (w : World) (env : UnlockEnv) : Locker × World :=
  (l.unlock w env).2

/-- An environment for `write_content` in which every syscall succeeds and
`write` reports the full requested size. -/
def fullWriteEnv (s : List Char) : WriteEnv :=
  { ftruncate_fail := none, lseek_fail := none, write_result := .ok s.length,
    fsync_fail := none }

/-- An environment for `read_content` in which every syscall succeeds. -/
def okReadEnv : ReadEnv :=
  { lseek_fail := none, read_fail := none }

/-- An environment for `unlock` with no injected failures. -/
def okUnlockEnv : UnlockEnv :=
  { close_fail := none, unlink_fail := none }

/-- An environment for `lock` in which `open` succeeds and the record lock
is granted. -/
def okLockEnv : LockEnv :=
  { open_fail := none, fcntl_fail := none }

/-- A world in which the lock file does not yet exist, no descriptor is
open, and the next descriptor `open` would return is `n`. -/
def fresh (n : Nat) : World :=
  { fileExists := false, content := [], fds := [], nextFd := n,
    lockRequest := none }

/-- Concrete run: a fresh Locker on path "p" acquires an exclusive lock
(descriptor 5 is handed out). -/
def acqOk : Except Err Bool × Locker × World :=
  (Locker.construct "p").write_lock (fresh 5) okLockEnv

/-- Concrete run: first `unlock` after `acqOk`, no injected failures. -/
def unlockOnce : Except Err Unit × Locker × World :=
  acqOk.2.1.unlock acqOk.2.2 okUnlockEnv

/-- Concrete run: second `unlock` immediately after `unlockOnce`, no
injected failures. -/
def unlockTwice : Except Err Unit × Locker × World :=
  unlockOnce.2.1.unlock unlockOnce.2.2 okUnlockEnv

/-- Concrete run: a fresh Locker attempts `read_lock` but another process
holds a conflicting lock (`fcntl` reports `EAGAIN`). -/
def acqContendedR : Except Err Bool × Locker × World :=
  (Locker.construct "p").read_lock (fresh 3)
    { open_fail := none, fcntl_fail := some .EAGAIN }

/-- Concrete run: a fresh Locker attempts `write_lock` but another process
holds a conflicting lock (`fcntl` reports `EACCES`). -/
def acqContendedW : Except Err Bool × Locker × World :=
  (Locker.construct "p").write_lock (fresh 3)
    { open_fail := none, fcntl_fail := some .EACCES }

/-- Concrete run: `write_content "x"` right after the contended
(false-returning) `write_lock` attempt, all syscalls succeeding. -/
def contendedWrite : Except Err Unit × Locker × World :=
  acqContendedW.2.1.write_content ['x'] acqContendedW.2.2 (fullWriteEnv ['x'])

/-- Concrete run: `read_content` right after `contendedWrite`. -/
def contendedRead : Except Err (List Char) × Locker × World :=
  contendedWrite.2.1.read_content contendedWrite.2.2 okReadEnv

/-- A Locker holding descriptor 5 on path "p". -/
def heldLocker : Locker :=
  { path := "p", lock_fd := 5 }

/-- The world matching `heldLocker`: the lock file exists (empty) and
descriptor 5 is open on it. -/
def heldWorld : World :=
  { fileExists := true, content := [], fds := [5], nextFd := 6,
    lockRequest := none }

/-- Concrete run: `write_content "ab"` on the held Locker while the kernel
performs a short write — the `write` syscall returns 1, not 2 and not
`-1`. -/
def partialWrite : Except Err Unit × Locker × World :=
  heldLocker.write_content ['a', 'b'] heldWorld
    { ftruncate_fail := none, lseek_fail := none, write_result := .ok 1,
      fsync_fail := none }

theorem readLoop_of_le : ∀ (fuel : Nat) (l : List Char), l.length ≤ fuel →
    readLoop fuel l = l := by
  intro fuel
  induction fuel with
  | zero =>
    intro l h
    have hl : l = [] := List.eq_nil_of_length_eq_zero (Nat.le_zero.mp h)
    subst hl
    rfl
  | succ n ih =>
    intro l h
    cases l with
    | nil => rfl
    | cons c rest =>
      have hdrop : ((c :: rest).drop 1024).length ≤ n := by
        simp only [List.length_drop]
        have := h
        simp only [List.length_cons] at this
        omega
      simp only [readLoop, ih _ hdrop, List.take_append_drop]

theorem readLoop_full (l : List Char) : readLoop l.length l = l :=
  readLoop_of_le l.length l (Nat.le_refl _)

theorem natCast_ne_neg_one (n : Nat) : (n : Int) ≠ -1 := by omega

theorem write_content_no_usage (l : Locker) (c : List Char) (w : World)
    (env : WriteEnv) (h : l.lock_fd ≠ -1) (m p : String) :
    (l.write_content c w env).1 ≠ .error (.runtimeError m p) := by
  obtain ⟨ft, ls, wr, fs⟩ := env
  cases ft <;> cases ls <;> rcases wr with e | n <;> cases fs <;>
    simp [Locker.write_content, h]

theorem read_content_no_usage (l : Locker) (w : World) (env : ReadEnv)
    (h : l.lock_fd ≠ -1) (m p : String) :
    (l.read_content w env).1 ≠ .error (.runtimeError m p) := by
  obtain ⟨ls, rd⟩ := env
  cases ls <;> cases rd <;> simp [Locker.read_content, h]

/-- Claim C1: the spec requires that on a held Locker `unlock()` closes the
descriptor, deletes the lock file, and returns the object to the unheld
state, a second `unlock()` then being an error-free no-op.  The code never
resets `lock_fd` to `-1`, so after acquiring the lock (descriptor 5) the
first `unlock` does close the descriptor and delete the file but leaves
`lock_fd = 5`; the second `unlock` therefore re-enters the close branch on
the stale descriptor, and `close` fails with `EBADF`, throwing
`SystemError` — the code contradicts the claim. -/
theorem unlock_twice_raises_ebadf :
    acqOk.1 = .ok true ∧
    unlockOnce.1 = .ok () ∧
    unlockOnce.2.2.fileExists = false ∧
    unlockOnce.2.2.fds = [] ∧
    unlockOnce.2.1.lock_fd = 5 ∧
    unlockTwice.1 = .error (.systemError .EBADF "Failed to close lock file" "p") := by
  decide

/-- Claim C2 counterexample: the claimed invariant says `lock_fd` moves from
the unheld sentinel to a held (valid open) descriptor only via a lock
attempt that returns `true`.  On a fresh Locker, a `read_lock` attempt that
fails with contention (`fcntl` reports `EAGAIN`) returns `false`, yet
`lock_fd` has left the sentinel and holds descriptor 3, which is open on the
file — refuting the claim. -/
theorem contended_lock_sets_lock_fd :
    acqContendedR.1 = .ok false ∧
    acqContendedR.2.1.lock_fd = 3 ∧
    acqContendedR.2.1.lock_fd ∈ acqContendedR.2.2.fds ∧
    acqContendedR.2.2.fileExists = true := by
  decide

/-- Claim C2 (amended): `lock_fd` leaves the sentinel on every lock attempt
whose `open` succeeds — including attempts that return `false` under
contention — taking the value of the freshly opened descriptor; an attempt
whose `open` fails stores the sentinel `-1`; and neither `write_content`,
`read_content`, nor `unlock` ever modifies `lock_fd` (in particular,
`unlock` does not restore the sentinel). -/
theorem lock_fd_transitions (l : Locker) (t : LockType) (w : World)
    (env : LockEnv) (envW : WriteEnv) (envR : ReadEnv) (envU : UnlockEnv)
    (c : List Char) :
    ((l.lock t w env).2.1.lock_fd =
      match env.open_fail with
      | some _ => -1
      | none => (w.nextFd : Int)) ∧
    (l.write_content c w envW).2.1 = l ∧
    (l.read_content w envR).2.1 = l ∧
    (l.unlock w envU).2.1 = l := by
  refine ⟨?_, ?_, ?_, ?_⟩
  · obtain ⟨of, ff⟩ := env
    cases of <;> cases ff <;> (simp [Locker.lock]; try (split <;> rfl))
  · obtain ⟨ft, ls, wr, fs⟩ := envW
    by_cases h : l.lock_fd = -1 <;>
      cases ft <;> cases ls <;> rcases wr with e | n <;> cases fs <;>
        simp [Locker.write_content, h]
  · obtain ⟨ls, rd⟩ := envR
    by_cases h : l.lock_fd = -1 <;>
      cases ls <;> cases rd <;> simp [Locker.read_content, h]
  · obtain ⟨cf, uf⟩ := envU
    by_cases h : l.lock_fd = -1 <;>
      by_cases hm : l.lock_fd ∈ w.fds <;>
        by_cases hf : w.fileExists = true <;>
          cases cf <;> cases uf <;> simp [Locker.unlock, h, hm, hf]

/-- Claim C3 counterexample: the claim says content operations on a Locker
on which no lock attempt ever returned `true` fail with the usage error.  A
fresh Locker whose single `write_lock` attempt returned `false` (contention)
has never successfully locked, yet `write_content` then succeeds (returning
`.ok`) and `read_content` returns the written content — no usage error is
raised, because the contended attempt already stored the open descriptor in
`lock_fd`. -/
theorem never_locked_write_succeeds :
    acqContendedW.1 = .ok false ∧
    contendedWrite.1 = .ok () ∧
    contendedRead.1 = .ok ['x'] := by
  decide

/-- Claim C3 (amended): `read_content` and `write_content` fail with the
usage error (a `RuntimeError` carrying the path and no OS error code)
exactly on a Locker whose `lock_fd` is the unheld sentinel, i.e. one on
which no lock attempt ever got as far as opening the file; after an attempt
that returned `false` under contention the descriptor is stored and the
usage error is no longer raised. -/
theorem usage_error_iff_sentinel (l : Locker) (w : World) (envW : WriteEnv)
    (envR : ReadEnv) (c : List Char) (h : l.lock_fd = -1) :
    (l.write_content c w envW).1 =
      .error (.runtimeError "The lock file is not opened" l.path) ∧
    (l.read_content w envR).1 =
      .error (.runtimeError "Cannot read content: no lock held on file" l.path) := by
  constructor
  · simp [Locker.write_content, h]
  · simp [Locker.read_content, h]

theorem usage_error_iff_sentinel_witness :
    ((Locker.construct "p").lock_fd = -1) ∧
    ((Locker.construct "p").write_content ['x']
        { fileExists := false, content := [], fds := [], nextFd := 3,
          lockRequest := none } (fullWriteEnv ['x'])).1 =
      .error (.runtimeError "The lock file is not opened" "p") :=
  ⟨by decide,
    (usage_error_iff_sentinel (Locker.construct "p")
      { fileExists := false, content := [], fds := [], nextFd := 3,
        lockRequest := none } (fullWriteEnv ['x']) okReadEnv ['x'] rfl).1⟩

/-- Claim C4: the spec requires a partial write (fewer bytes written than
requested) to be an error, but the code checks only `written == -1`.  On a
held Locker, writing `"ab"` while the `write` syscall reports only 1 byte
written makes `write_content` return normally, leaving just `"a"` in the
file — the code contradicts the claim. -/
theorem partial_write_not_detected :
    partialWrite.1 = .ok () ∧ partialWrite.2.2.content = ['a'] := by
  decide

/-- Claim C5: when `open` succeeds and the `F_SETLK` request fails with
errno `e`, a lock attempt of either kind returns `false` without an error
precisely when `e` is `EACCES` or `EAGAIN` (contention); for any other
errno it throws the fatal `SystemError` carrying `e` and the path instead
of returning `false`. -/
theorem contention_false_else_fatal (l : Locker) (t : LockType) (w : World)
    (env : LockEnv) (e : Errno) (hopen : env.open_fail = none)
    (hf : env.fcntl_fail = some e) :
    ((e = .EACCES ∨ e = .EAGAIN) → (l.lock t w env).1 = .ok false) ∧
    (¬(e = .EACCES ∨ e = .EAGAIN) →
      (l.lock t w env).1 = .error (.systemError e "Failed to obtain lock" l.path)) := by
  obtain ⟨of, ff⟩ := env
  simp only at hopen hf
  subst hopen
  subst hf
  constructor
  · intro h
    simp [Locker.lock, h]
  · intro h
    simp [Locker.lock, h]

theorem contention_false_else_fatal_witness :
    (({ open_fail := none, fcntl_fail := some .EAGAIN } : LockEnv).open_fail = none) ∧
    ((Locker.construct "p").lock .F_WRLCK (fresh 3)
        { open_fail := none, fcntl_fail := some .EAGAIN }).1 = .ok false ∧
    ((Locker.construct "p").lock .F_WRLCK (fresh 3)
        { open_fail := none, fcntl_fail := some .EINTR }).1 =
      .error (.systemError .EINTR "Failed to obtain lock" "p") :=
  ⟨rfl,
    (contention_false_else_fatal (Locker.construct "p") .F_WRLCK (fresh 3)
      { open_fail := none, fcntl_fail := some .EAGAIN } .EAGAIN rfl rfl).1
      (Or.inr rfl),
    (contention_false_else_fatal (Locker.construct "p") .F_WRLCK (fresh 3)
      { open_fail := none, fcntl_fail := some .EINTR } .EINTR rfl rfl).2
      (by decide)⟩

/-- Claim C6: on a held Locker, `write_content s1` (all syscalls
succeeding, full write) followed by `read_content` returns exactly `s1`,
and a subsequent `write_content s2` followed by `read_content` returns
exactly `s2` — each write truncates the file first and replaces the
previous content rather than appending. -/
theorem write_read_round_trip (l : Locker) (w : World) (s1 s2 : List Char)
    (h : l.lock_fd ≠ -1) :
    (l.write_content s1 w (fullWriteEnv s1)).1 = .ok () ∧
    (l.read_content (l.write_content s1 w (fullWriteEnv s1)).2.2 okReadEnv).1 =
      .ok s1 ∧
    (l.write_content s2 (l.write_content s1 w (fullWriteEnv s1)).2.2
        (fullWriteEnv s2)).1 = .ok () ∧
    (l.read_content (l.write_content s2 (l.write_content s1 w (fullWriteEnv s1)).2.2
        (fullWriteEnv s2)).2.2 okReadEnv).1 = .ok s2 := by
  refine ⟨?_, ?_, ?_, ?_⟩ <;>
    simp [Locker.write_content, Locker.read_content, fullWriteEnv, okReadEnv,
      h, readLoop_full]

theorem write_read_round_trip_witness :
    (heldLocker.lock_fd ≠ -1) ∧
    (heldLocker.read_content
        (heldLocker.write_content ['x'] heldWorld (fullWriteEnv ['x'])).2.2
        okReadEnv).1 = .ok ['x'] :=
  ⟨by decide,
    (write_read_round_trip heldLocker heldWorld ['x'] ['y', 'y']
      (by decide)).2.1⟩

/-- Claim C7: `read_lock` and `write_lock` are each exactly the shared
internal operation `lock` applied to the corresponding record-lock type,
and that type is the only difference: for any two types the result and the
object state agree, the worlds agree except for the recorded lock request,
and (when `open` succeeds) the request issued is the zeroed `flock` whose
`l_type` is the requested type. -/
theorem entry_points_funnel_through_lock (l : Locker) (w : World)
    (env : LockEnv) (t t' : LockType) :
    l.read_lock w env = l.lock .F_RDLCK w env ∧
    l.write_lock w env = l.lock .F_WRLCK w env ∧
    (l.lock t w env).1 = (l.lock t' w env).1 ∧
    (l.lock t w env).2.1 = (l.lock t' w env).2.1 ∧
    { (l.lock t w env).2.2 with lockRequest := none } =
      { (l.lock t' w env).2.2 with lockRequest := none } ∧
    ((l.lock t w env).2.2.lockRequest =
      match env.open_fail with
      | some _ => w.lockRequest
      | none =>
          some { l_type := t, l_whence := 0, l_start := 0, l_len := 0, l_pid := 0 }) := by
  refine ⟨rfl, rfl, ?_, ?_, ?_, ?_⟩ <;>
    · obtain ⟨of, ff⟩ := env
      cases of <;> cases ff <;> (simp only [Locker.lock]; try rfl)
      all_goals
        rename_i e
        by_cases h : e = Errno.EACCES ∨ e = Errno.EAGAIN <;> simp [h]

/-- Claim C8: the destructor performs exactly the action of `unlock` —
ending in the same object and OS state, whatever `unlock` did — but its
error channel is discarded, so teardown completes normally even when
`unlock` throws; in particular, destroying a held Locker with no syscall
failure removes the lock file. -/
theorem destructor_swallows_errors (l : Locker) (w : World) (env : UnlockEnv) :
    l.destroy w env = (l.unlock w env).2 ∧
    (l.lock_fd ≠ -1 → l.lock_fd ∈ w.fds → w.fileExists = true →
      env.close_fail = none → env.unlink_fail = none →
      (l.destroy w env).2.fileExists = false) := by
  refine ⟨rfl, ?_⟩
  intro h hm hfe hc hu
  obtain ⟨cf, uf⟩ := env
  simp only at hc hu
  subst hc
  subst hu
  simp [Locker.destroy, Locker.unlock, h, hm, hfe]

theorem destructor_swallows_errors_witness :
    (heldLocker.lock_fd ≠ -1 ∧ heldLocker.lock_fd ∈ heldWorld.fds) ∧
    (heldLocker.destroy heldWorld okUnlockEnv).2.fileExists = false :=
  ⟨by decide,
    (destructor_swallows_errors heldLocker heldWorld okUnlockEnv).2
      (by decide) (by decide) rfl rfl rfl⟩

/-- Claim C9: `write_content` and `read_content` never touch the lock
state: on every path — usage error, any syscall failure, or success — the
Locker (hence `lock_fd` and the held/unheld status) is returned unchanged,
`write_content` changes no world component except the file content, and
`read_content` leaves the world entirely unchanged. -/
theorem content_ops_preserve_lock_state (l : Locker) (c : List Char)
    (w : World) (envW : WriteEnv) (envR : ReadEnv) :
    (l.write_content c w envW).2.1 = l ∧
    (l.write_content c w envW).2.2.fds = w.fds ∧
    (l.write_content c w envW).2.2.fileExists = w.fileExists ∧
    (l.read_content w envR).2.1 = l ∧
    (l.read_content w envR).2.2 = w := by
  obtain ⟨ft, ls, wr, fs⟩ := envW
  obtain ⟨ls2, rd⟩ := envR
  refine ⟨?_, ?_, ?_, ?_, ?_⟩
  · by_cases h : l.lock_fd = -1 <;>
      cases ft <;> cases ls <;> rcases wr with e | n <;> cases fs <;>
        simp [Locker.write_content, h]
  · by_cases h : l.lock_fd = -1 <;>
      cases ft <;> cases ls <;> rcases wr with e | n <;> cases fs <;>
        simp [Locker.write_content, h]
  · by_cases h : l.lock_fd = -1 <;>
      cases ft <;> cases ls <;> rcases wr with e | n <;> cases fs <;>
        simp [Locker.write_content, h]
  · by_cases h : l.lock_fd = -1 <;>
      cases ls2 <;> cases rd <;> simp [Locker.read_content, h]
  · by_cases h : l.lock_fd = -1 <;>
      cases ls2 <;> cases rd <;> simp [Locker.read_content, h]

/-- Claim C10: inside `lock`, `lock_fd` is assigned from `open` before the
record-lock request, so after an attempt that returns `false` under
contention `lock_fd` holds the just-opened descriptor: subsequent
`write_content`/`read_content` calls do not raise the usage error
(whatever the kernel does to their syscalls), and a subsequent `unlock`
closes that descriptor and deletes the lock file even though no lock was
ever granted. -/
theorem contended_attempt_keeps_descriptor (l : Locker) (t : LockType)
    (w : World) (env : LockEnv) (c : List Char) (envW : WriteEnv)
    (envR : ReadEnv) (hfresh : (w.nextFd : Int) ∉ w.fds)
    (hopen : env.open_fail = none)
    (hf : env.fcntl_fail = some .EACCES ∨ env.fcntl_fail = some .EAGAIN) :
    (l.lock t w env).1 = .ok false ∧
    (l.lock t w env).2.1.lock_fd = (w.nextFd : Int) ∧
    (l.lock t w env).2.1.lock_fd ∈ (l.lock t w env).2.2.fds ∧
    ((l.lock t w env).2.1.write_content c (l.lock t w env).2.2 envW).1 ≠
      .error (.runtimeError "The lock file is not opened" l.path) ∧
    ((l.lock t w env).2.1.read_content (l.lock t w env).2.2 envR).1 ≠
      .error (.runtimeError "Cannot read content: no lock held on file" l.path) ∧
    ((l.lock t w env).2.1.unlock (l.lock t w env).2.2 okUnlockEnv).1 = .ok () ∧
    ((l.lock t w env).2.1.unlock (l.lock t w env).2.2 okUnlockEnv).2.2.fileExists
      = false ∧
    (l.lock t w env).2.1.lock_fd ∉
      ((l.lock t w env).2.1.unlock (l.lock t w env).2.2 okUnlockEnv).2.2.fds := by
  obtain ⟨of, ff⟩ := env
  simp only at hopen
  subst hopen
  have key : Locker.lock l t w { open_fail := none, fcntl_fail := ff } =
      (.ok false, { l with lock_fd := (w.nextFd : Int) },
        { fileExists := true
          content := if w.fileExists then w.content else []
          fds := (w.nextFd : Int) :: w.fds
          nextFd := w.nextFd + 1
          lockRequest := some
            { l_type := t, l_whence := 0, l_start := 0, l_len := 0, l_pid := 0 } }) := by
    rcases hf with hf | hf <;> (simp only at hf; subst hf; simp [Locker.lock])
  rw [key]
  have hne : ((w.nextFd : Int)) ≠ -1 := natCast_ne_neg_one w.nextFd
  refine ⟨rfl, rfl, List.mem_cons_self _ _, ?_, ?_, ?_, ?_, ?_⟩
  · exact write_content_no_usage _ c _ envW hne _ _
  · exact read_content_no_usage _ _ envR hne _ _
  · simp [Locker.unlock, okUnlockEnv, hne, List.erase_cons_head]
  · simp [Locker.unlock, okUnlockEnv, hne, List.erase_cons_head]
  · simp [Locker.unlock, okUnlockEnv, hne, List.erase_cons_head]
    exact hfresh

theorem contended_attempt_keeps_descriptor_witness :
    (((fresh 7).nextFd : Int) ∉ (fresh 7).fds) ∧
    ((Locker.construct "p").lock .F_RDLCK (fresh 7)
        { open_fail := none, fcntl_fail := some .EAGAIN }).1 = .ok false :=
  ⟨by decide,
    (contended_attempt_keeps_descriptor (Locker.construct "p") .F_RDLCK
      (fresh 7) { open_fail := none, fcntl_fail := some .EAGAIN } ['x']
      (fullWriteEnv ['x']) okReadEnv (by decide) rfl (Or.inr rfl)).1⟩

end Libdnf5.Utils
